import Mathlib

/-!
Verification of the environment-rig composer of the `nsi-3delight` crate
(`src/lib.rs`): the functions `environment`, `environment_texture` and
`environment_sky`.

The crate is a thin composition layer over an external scene context (the
`nsi` crate).  The external collaborators (`nsi::Context` and
`nsi::toolbelt`) are not part of this repository; following the
specification they are modelled as a growing event log of the primitive
operations the composer issues (node creation, connection, attribute
setting) together with a deterministic model of the external fresh-handle
allocator.  Handles are modelled as an inductive type separating
caller-supplied names from allocator-generated ones, encoding the
specification's statement that the external generator is trusted to
produce unique handles.  Floating-point scalars (`f64`, `f32`) are
modelled as exact rationals; `core::f64::consts::TAU` is the exact
rational value of the IEEE-754 binary64 constant, and the platform
computation `2.0f32.powf e` is modelled by an explicit function parameter
`pow2`.
-/

namespace NsiRig

/-- Attribute values this layer emits: integers, floats (modelled as exact
rationals), strings, and small float vectors (the rotation axis). -/
inductive AttrValue where
  | int (i : Int)
  | flt (q : ℚ)
  | str (s : String)
  | vec (v : List ℚ)
deriving DecidableEq, Repr

/-- The node types of the external scene graph used by this layer
(`nsi::NodeType` variants appearing in `src/lib.rs`). -/
inductive NodeType where
  | Transform
  | Environment
  | Shader
  | Attributes
deriving DecidableEq, Repr

/-- Category hint used by the model of the external handle allocator for
each node type. -/
def NodeType.label : NodeType → String
  | .Transform => "transform"
  | .Environment => "environment"
  | .Shader => "shader"
  | .Attributes => "attributes"

/-- A node handle.  Modelled from the spec: handles are opaque string
identifiers with two sources — caller-supplied or produced by the external
system's identifier allocator, the latter trusted to be unique (and hence
modelled as a separate constructor carrying the category hint and an
allocation number). -/
inductive Handle where
  | user (s : String)
  | gen (cat : Option String) (n : Nat)
deriving DecidableEq, Repr

/-- One primitive operation issued to the external scene context. -/
inductive Event where
  | create (h : Handle) (ty : NodeType) (attrs : List (String × AttrValue))
  | connect (par : Handle) (slot : Option String) (child : Handle)
  | setAttr (h : Handle) (attrs : List (String × AttrValue))
deriving DecidableEq, Repr

/-- Modelled from the spec: the external scene context, as the chronological
log of primitive operations issued to it plus the state of its fresh-handle
allocator. -/
structure Scene where
  counter : Nat
  events : List Event
deriving DecidableEq, Repr

/-- A scene context with no operations issued yet. -/
def Scene.empty : Scene := ⟨0, []⟩

/-- Record one primitive operation at the end of the log. -/
def Scene.emit (s : Scene) (e : Event) : Scene :=
  { s with events := s.events ++ [e] }

/-- Modelled from the spec: the external system's identifier allocator,
"generate a fresh unique handle, optionally namespaced by a category
hint". -/
def Scene.genHandle (s : Scene) (cat : Option String) : Handle × Scene :=
  (.gen cat s.counter, { s with counter := s.counter + 1 })

/-- Modelled from the spec: `nsi::toolbelt::generate_or_use_handle` (external
to this repository) — "if the caller supplied a name, return it unchanged;
otherwise request a freshly generated unique identifier, namespaced by the
category label". -/
def generate_or_use_handle (handle : Option String) (cat : Option String)
    (s : Scene) : Handle × Scene :=
  match handle with
  | some h => (.user h, s)
  | none => s.genHandle cat

/-- Modelled from the spec: `nsi::Context::node` (external) — "create a node
of a given type with an optional handle and optional initial attributes;
returns/uses the resolved handle".  The optional handle is an
already-resolved `Handle` (the source passes either `None` or a handle
string previously resolved by `generate_or_use_handle`). -/
def Scene.node (s : Scene) (handle : Option Handle) (ty : NodeType)
    (attrs : List (String × AttrValue)) : Handle × Scene :=
  match handle with
  | some h => (h, s.emit (.create h ty attrs))
  | none =>
    let (h, s) := s.genHandle (some ty.label)
    (h, s.emit (.create h ty attrs))

/-- Modelled from the spec: `nsi::Context::append` (external) — "connect one
node as a child of another under a named relation"; it returns the pair of
the two handles (parent first), as the source uses `.0` of the result. -/
def Scene.append (s : Scene) (par : Handle) (slot : Option String)
    (child : Handle) : (Handle × Handle) × Scene :=
  ((par, child), s.emit (.connect par slot child))

/-- Modelled from the spec: `nsi::Context::set_attribute` (external) — "set
one or more (name, typed value) attributes on an existing node,
last-write-wins across calls". -/
def Scene.set_attribute (s : Scene) (h : Handle)
    (attrs : List (String × AttrValue)) : Scene :=
  s.emit (.setAttr h attrs)

/-- Modelled from the spec: `nsi::Context::rotation` (external, from
`nsi::toolbelt`) — the rotation primitive creates a transform node (with a
resolved handle) recording the rotation angle (the radian-equivalent value
passed by the caller) and the rotation axis. -/
def Scene.rotation (s : Scene) (handle : Option String) (angle : ℚ)
    (axis : List ℚ) : Handle × Scene :=
  let (h, s) := generate_or_use_handle handle (some "rotation") s
  (h, s.emit (.create h .Transform
      [("rotation.angle", .flt angle), ("rotation.axis", .vec axis)]))

/-- A model of the platform `f32` computation `2.0f32.powf e`
(`src/lib.rs` lines 113 and 160; the platform exponential is external to
this repository).  It is exact at the integer stops where IEEE binary32
computes a power of two exactly, which are the only points the theorems
below constrain; it is used to instantiate the abstract `pow2` parameter
in witnesses. -/
def pow2f32 (e : ℚ) : ℚ :=
  if e.den = 1 then 2 ^ e.num else 0

/-- The exact rational value of the IEEE-754 binary64 constant
`core::f64::consts::TAU` (the `f64` nearest to 2π). -/
def TAU : ℚ := 884279719003555 / 140737488355328

/-- Shader-program reference emitted by `environment_texture`
(`src/lib.rs` line 112). -/
def envLightShaderPath : String := "$\x7bDELIGHT\x7d/osl/environmentLight"

/-- Shader-program reference emitted by `environment_sky`
(`src/lib.rs` line 159). -/
def skyShaderPath : String := "$\x7bDELIGHT\x7d/osl/dlSky"

/-- Embedding of `environment` (`src/lib.rs` lines 24–64).  `f64` arithmetic
is modelled as exact rational arithmetic.  Events are issued in the source's
evaluation order: rotation transform, environment node, first `append`,
shader node, attributes node, inner `append`, outer `append`. -/
def environment (s : Scene) (handle : Option String) (angle : Option ℚ)
    (visible : Option Bool) : (Handle × Handle) × Scene :=
  let (rotation, s) := s.rotation none ((angle.getD 0) * TAU / 90) [0, 1, 0]
  let (environment, s) := generate_or_use_handle handle (some "environment") s
  let (envNode, s) := s.node (some environment) .Environment []
  let (_, s) := s.append rotation none envNode
  let (shader, s) := s.node none .Shader []
  let (attrsNode, s) := s.node none .Attributes
      [("visibility.camera", .int (if visible.getD true then 1 else 0))]
  let (inner, s) := s.append attrsNode (some "surfaceshader") shader
  let (_, s) := s.append environment (some "geometryattributes") inner.1
  ((rotation, shader), s)

/-- Embedding of `environment_texture` (`src/lib.rs` lines 97–123).  The
caller-supplied override list `args` is the `nsi::ArgSlice` of the source;
`pow2` models the platform `2.0f32.powf`. -/
def environment_texture (s : Scene) (pow2 : ℚ → ℚ) (handle : Option String)
    (texture : String) (angle : Option ℚ) (exposure : Option ℚ)
    (visible : Option Bool) (args : List (String × AttrValue)) :
    (Handle × Handle) × Scene :=
  let ((rotation, shader), s) := environment s handle angle visible
  let s := s.set_attribute shader
      [("shaderfilename", .str envLightShaderPath),
       ("intensity", .flt (pow2 (exposure.getD 0))),
       ("image", .str texture)]
  let s := if args.isEmpty then s else s.set_attribute shader args
  ((rotation, shader), s)

/-- Embedding of `environment_sky` (`src/lib.rs` lines 145–169). -/
def environment_sky (s : Scene) (pow2 : ℚ → ℚ) (handle : Option String)
    (angle : Option ℚ) (exposure : Option ℚ) (visible : Option Bool)
    (args : List (String × AttrValue)) : (Handle × Handle) × Scene :=
  let ((rotation, shader), s) := environment s handle angle visible
  let s := s.set_attribute shader
      [("shaderfilename", .str skyShaderPath),
       ("intensity", .flt (pow2 (exposure.getD 0)))]
  let s := if args.isEmpty then s else s.set_attribute shader args
  ((rotation, shader), s)

/-- The operations a call issued: the suffix of the event log past the
initial scene's events. -/
def callEvents (s s' : Scene) : List Event :=
  s'.events.drop s.events.length

/-- The node-creation events among `l`, in order, as
(handle, type, initial attributes) triples. -/
def createsIn (l : List Event) :
    List (Handle × NodeType × List (String × AttrValue)) :=
  l.filterMap fun e =>
    match e with
    | .create h ty attrs => some (h, ty, attrs)
    | _ => none

/-- The connection events among `l`, in order, as
(parent, relation, child) triples. -/
def connectsIn (l : List Event) :
    List (Handle × Option String × Handle) :=
  l.filterMap fun e =>
    match e with
    | .connect par slot child => some (par, slot, child)
    | _ => none

/-- The `set_attribute` calls among `l`, in order, as
(target handle, attribute list) pairs. -/
def setAttrsIn (l : List Event) :
    List (Handle × List (String × AttrValue)) :=
  l.filterMap fun e =>
    match e with
    | .setAttr h attrs => some (h, attrs)
    | _ => none

/-- Whether an event is a `set_attribute` call. -/
def Event.isSetAttr : Event → Bool
  | .setAttr _ _ => true
  | _ => false

/-- The attribute writes applied to node `h` by the events `l`, in
chronological order: creation-time attributes followed by `set_attribute`
entries, flattened. -/
def writesOn (l : List Event) (h : Handle) : List (String × AttrValue) :=
  (l.map fun e =>
    match e with
    | .create h2 _ attrs => if h2 = h then attrs else []
    | .setAttr h2 attrs => if h2 = h then attrs else []
    | .connect _ _ _ => []).flatten

/-- The value a sequence of attribute writes leaves for `name` under the
spec's last-write-wins rule. -/
def lookupLast (name : String) (writes : List (String × AttrValue)) :
    Option AttrValue :=
  ((writes.filter fun p => p.1 = name).getLast?).map fun p => p.2

/-- The final value of attribute `name` on node `h` after the events `l`
(last write wins across creation and `set_attribute` calls). -/
def finalAttr (l : List Event) (h : Handle) (name : String) :
    Option AttrValue :=
  lookupLast name (writesOn l h)

/-- The fixed four-node, three-connection rig topology of the spec, relative
to the returned (root, shader) pair: exactly four nodes are created — a
rotation transform (the root), an environment light, a shader and an
attributes node — and exactly three connections are made: the light a child
of the transform, the shader connected to the attributes node under
"surfaceshader" and the attributes node connected to the light under
"geometryattributes". -/
def RigTopology (root shader : Handle) (l : List Event) : Prop :=
  ∃ envH attrsH,
    (createsIn l).map (fun p => (p.1, p.2.1))
      = [(root, .Transform), (envH, .Environment),
         (shader, .Shader), (attrsH, .Attributes)]
    ∧ connectsIn l
      = [(root, none, envH),
         (attrsH, some "surfaceshader", shader),
         (envH, some "geometryattributes", attrsH)]

/-- The handles and initial attribute lists of the Shader-type nodes created
among the events `l`. -/
def shaderCreates (l : List Event) :
    List (Handle × List (String × AttrValue)) :=
  (createsIn l).filterMap fun p =>
    if p.2.1 = NodeType.Shader then some (p.1, p.2.2) else none

/-- The initial attribute lists of the Attributes-type nodes created among
the events `l`. -/
def attributesCreates (l : List Event) : List (List (String × AttrValue)) :=
  (createsIn l).filterMap fun p =>
    if p.2.1 = NodeType.Attributes then some p.2.2 else none

/-- The handles of the Environment-type nodes created among the events
`l`. -/
def environmentCreates (l : List Event) : List Handle :=
  (createsIn l).filterMap fun p =>
    if p.2.1 = NodeType.Environment then some p.1 else none

/-- Characterization of one `environment` call with a caller-supplied
handle: the complete event log it appends featuring the caller's handle on
the environment light node, and the returned pair. -/
theorem environment_run_some (s : Scene) (h : String) (angle : Option ℚ)
    (visible : Option Bool) :
    environment s (some h) angle visible =
      ((.gen (some "rotation") s.counter, .gen (some "shader") (s.counter + 1)),
       { counter := s.counter + 3,
         events := s.events ++
           [.create (.gen (some "rotation") s.counter) .Transform
              [("rotation.angle", .flt ((angle.getD 0) * TAU / 90)),
               ("rotation.axis", .vec [0, 1, 0])],
            .create (.user h) .Environment [],
            .connect (.gen (some "rotation") s.counter) none (.user h),
            .create (.gen (some "shader") (s.counter + 1)) .Shader [],
            .create (.gen (some "attributes") (s.counter + 2)) .Attributes
              [("visibility.camera", .int (if visible.getD true then 1 else 0))],
            .connect (.gen (some "attributes") (s.counter + 2))
              (some "surfaceshader") (.gen (some "shader") (s.counter + 1)),
            .connect (.user h) (some "geometryattributes")
              (.gen (some "attributes") (s.counter + 2))] }) := by
  simp [environment, Scene.rotation, generate_or_use_handle, Scene.genHandle,
    Scene.node, Scene.append, Scene.set_attribute, Scene.emit, NodeType.label]

/-- Characterization of one `environment` call without a caller-supplied
handle: every handle is allocator-generated. -/
theorem environment_run_none (s : Scene) (angle : Option ℚ)
    (visible : Option Bool) :
    environment s none angle visible =
      ((.gen (some "rotation") s.counter, .gen (some "shader") (s.counter + 2)),
       { counter := s.counter + 4,
         events := s.events ++
           [.create (.gen (some "rotation") s.counter) .Transform
              [("rotation.angle", .flt ((angle.getD 0) * TAU / 90)),
               ("rotation.axis", .vec [0, 1, 0])],
            .create (.gen (some "environment") (s.counter + 1)) .Environment [],
            .connect (.gen (some "rotation") s.counter) none
              (.gen (some "environment") (s.counter + 1)),
            .create (.gen (some "shader") (s.counter + 2)) .Shader [],
            .create (.gen (some "attributes") (s.counter + 3)) .Attributes
              [("visibility.camera", .int (if visible.getD true then 1 else 0))],
            .connect (.gen (some "attributes") (s.counter + 3))
              (some "surfaceshader") (.gen (some "shader") (s.counter + 2)),
            .connect (.gen (some "environment") (s.counter + 1))
              (some "geometryattributes")
              (.gen (some "attributes") (s.counter + 3))] }) := by
  simp [environment, Scene.rotation, generate_or_use_handle, Scene.genHandle,
    Scene.node, Scene.append, Scene.set_attribute, Scene.emit, NodeType.label]

/-- A run of `set_attribute`-only events creates no nodes. -/
theorem createsIn_of_setAttrs (l : List Event)
    (h : l.all Event.isSetAttr = true) : createsIn l = [] := by
  induction l with
  | nil => rfl
  | cons e t ih => cases e <;> simp_all [createsIn, Event.isSetAttr]

/-- A run of `set_attribute`-only events makes no connections. -/
theorem connectsIn_of_setAttrs (l : List Event)
    (h : l.all Event.isSetAttr = true) : connectsIn l = [] := by
  induction l with
  | nil => rfl
  | cons e t ih => cases e <;> simp_all [connectsIn, Event.isSetAttr]

/-- The seven base-rig events followed by any run of `set_attribute`-only
events form the fixed rig topology. -/
theorem rigTopology_delta (root envH shader attrsH : Handle)
    (ra va : List (String × AttrValue)) (extra : List Event)
    (hx : extra.all Event.isSetAttr = true) :
    RigTopology root shader
      ([.create root .Transform ra, .create envH .Environment [],
        .connect root none envH, .create shader .Shader [],
        .create attrsH .Attributes va,
        .connect attrsH (some "surfaceshader") shader,
        .connect envH (some "geometryattributes") attrsH] ++ extra) := by
  have hc := createsIn_of_setAttrs extra hx
  have hk := connectsIn_of_setAttrs extra hx
  unfold createsIn at hc
  unfold connectsIn at hk
  refine ⟨envH, attrsH, ?_, ?_⟩ <;>
    simp [createsIn, connectsIn, List.filterMap_append, hc, hk]

/-- Prepending a write does not change the last-write-wins value when the
later writes already settle the name. -/
theorem lookupLast_cons (name : String) (p : String × AttrValue)
    (w : List (String × AttrValue)) (v : AttrValue)
    (h : lookupLast name w = some v) : lookupLast name (p :: w) = some v := by
  unfold lookupLast at h ⊢
  obtain ⟨q, hq, hqv⟩ := Option.map_eq_some'.mp h
  by_cases hp : p.1 = name <;>
    simp [List.filter_cons, hp, List.getLast?_cons, List.getLastD_eq_getLast?,
      hq, hqv]

/-- C1: the claim says a caller-supplied root handle `h` is returned as the
rig root.  The code instead always returns the freshly generated
rotation-transform handle (the rotation primitive is called with `None`),
and uses the caller-supplied handle for the environment light node; this
counterexample evaluates `environment` at `handle = Some("myenv")` on a
fresh context, and also records that with no caller handle the returned
root is freshly generated. -/
theorem c1_root_handle_is_not_caller_supplied :
    (environment Scene.empty (some "myenv") none none).1.1
        ≠ Handle.user "myenv"
    ∧ (environment Scene.empty (some "myenv") none none).1.1
        = Handle.gen (some "rotation") 0
    ∧ (createsIn (callEvents Scene.empty
          (environment Scene.empty (some "myenv") none none).2)).map
          (fun p => (p.1, p.2.1))
        = [(Handle.gen (some "rotation") 0, NodeType.Transform),
           (Handle.user "myenv", NodeType.Environment),
           (Handle.gen (some "shader") 1, NodeType.Shader),
           (Handle.gen (some "attributes") 2, NodeType.Attributes)]
    ∧ (environment Scene.empty none none none).1.1
        = Handle.gen (some "rotation") 0 := by
  decide

/-- C2: for every `environment` call the rotation transform stores the
angle `(angle.getD 0) * TAU / 90` — the literal factor 2π/90 of the source,
`TAU` being the `f64` value of 2π — so at `angle = 90` degrees the stored
rotation angle is `TAU` (a full turn), which differs from the value
`90 * TAU / 360` a standard degrees-to-radians conversion would store. -/
theorem c2_rotation_angle_tau_over_ninety (s : Scene) (handle : Option String)
    (angle : Option ℚ) (visible : Option Bool) :
    finalAttr (callEvents s (environment s handle angle visible).2)
        (environment s handle angle visible).1.1 "rotation.angle"
      = some (.flt ((angle.getD 0) * TAU / 90))
    ∧ finalAttr (callEvents s (environment s handle (some 90) visible).2)
        (environment s handle (some 90) visible).1.1 "rotation.angle"
      = some (.flt TAU)
    ∧ AttrValue.flt TAU ≠ AttrValue.flt (90 * TAU / 360) := by
  have h90 : (90 : ℚ) * TAU / 90 = TAU := mul_div_cancel_left₀ TAU (by norm_num)
  have hne : AttrValue.flt TAU ≠ AttrValue.flt (90 * TAU / 360) := by
    simp only [ne_eq, AttrValue.flt.injEq]
    norm_num [TAU]
  cases handle <;>
    simp [environment_run_none, environment_run_some, callEvents, finalAttr,
      writesOn, lookupLast, h90, hne]

/-- C3: every call to each of the three composition functions creates
exactly four nodes (rotation transform, environment light, shader,
attributes node) and exactly three connections — the light a child of the
transform, the shader connected to the attributes node under
"surfaceshader", and the attributes node connected to the light under
"geometryattributes" — regardless of the variant invoked. -/
theorem c3_fixed_topology (s : Scene) (pow2 : ℚ → ℚ) (handle : Option String)
    (texture : String) (angle : Option ℚ) (exposure : Option ℚ)
    (visible : Option Bool) (args : List (String × AttrValue)) :
    RigTopology (environment s handle angle visible).1.1
      (environment s handle angle visible).1.2
      (callEvents s (environment s handle angle visible).2)
    ∧ RigTopology
        (environment_texture s pow2 handle texture angle exposure visible args).1.1
        (environment_texture s pow2 handle texture angle exposure visible args).1.2
        (callEvents s
          (environment_texture s pow2 handle texture angle exposure visible args).2)
    ∧ RigTopology
        (environment_sky s pow2 handle angle exposure visible args).1.1
        (environment_sky s pow2 handle angle exposure visible args).1.2
        (callEvents s
          (environment_sky s pow2 handle angle exposure visible args).2) := by
  cases handle <;> cases args <;>
    simp only [environment_run_none, environment_run_some, environment_texture,
      environment_sky, Scene.set_attribute, Scene.emit, callEvents,
      List.isEmpty_nil, List.isEmpty_cons, if_true, if_false, Bool.false_eq_true,
      List.append_assoc, List.singleton_append, List.cons_append, List.nil_append,
      List.drop_left] <;>
    refine ⟨rigTopology_delta _ _ _ _ _ _ _ rfl,
      rigTopology_delta _ _ _ _ _ _ _ rfl,
      rigTopology_delta _ _ _ _ _ _ _ rfl⟩

/-- C4: for every no-override call to `environment_texture` or
`environment_sky` the final "intensity" attribute on the shader is
`pow2 (exposure.getD 0)` where `pow2` models the `f32` computation
`2.0f32.powf`; since `f32` exponentiation is exact at the integer stops
(`pow2 0 = 1`, `pow2 1 = 2`, `pow2 (-1) = 1/2`), the default intensity is
1, for exposure 1 it is 2, and for exposure -1 it is 1/2, for both
variants. -/
theorem c4_intensity_is_two_pow_exposure (s : Scene) (pow2 : ℚ → ℚ)
    (handle : Option String) (texture : String) (angle : Option ℚ)
    (exposure : Option ℚ) (visible : Option Bool)
    (hp0 : pow2 0 = 1) (hp1 : pow2 1 = 2) (hpm : pow2 (-1) = 1/2) :
    finalAttr
        (callEvents s
          (environment_texture s pow2 handle texture angle exposure visible []).2)
        (environment_texture s pow2 handle texture angle exposure visible []).1.2
        "intensity"
      = some (.flt (pow2 (exposure.getD 0)))
    ∧ finalAttr
        (callEvents s (environment_sky s pow2 handle angle exposure visible []).2)
        (environment_sky s pow2 handle angle exposure visible []).1.2
        "intensity"
      = some (.flt (pow2 (exposure.getD 0)))
    ∧ finalAttr
        (callEvents s
          (environment_texture s pow2 handle texture angle none visible []).2)
        (environment_texture s pow2 handle texture angle none visible []).1.2
        "intensity"
      = some (.flt 1)
    ∧ finalAttr
        (callEvents s
          (environment_texture s pow2 handle texture angle (some 1) visible []).2)
        (environment_texture s pow2 handle texture angle (some 1) visible []).1.2
        "intensity"
      = some (.flt 2)
    ∧ finalAttr
        (callEvents s
          (environment_texture s pow2 handle texture angle (some (-1)) visible []).2)
        (environment_texture s pow2 handle texture angle (some (-1)) visible []).1.2
        "intensity"
      = some (.flt (1/2))
    ∧ finalAttr
        (callEvents s (environment_sky s pow2 handle angle (some 1) visible []).2)
        (environment_sky s pow2 handle angle (some 1) visible []).1.2
        "intensity"
      = some (.flt 2)
    ∧ finalAttr
        (callEvents s (environment_sky s pow2 handle angle (some (-1)) visible []).2)
        (environment_sky s pow2 handle angle (some (-1)) visible []).1.2
        "intensity"
      = some (.flt (1/2)) := by
  cases handle <;>
    simp [environment_run_none, environment_run_some, environment_texture,
      environment_sky, Scene.set_attribute, Scene.emit, callEvents,
      finalAttr, writesOn, lookupLast, hp0, hp1, hpm]

/-- C4 witness: the hypotheses hold of the concrete `f32` model `pow2f32`
and the theorem applies at a concrete call. -/
theorem c4_intensity_is_two_pow_exposure_witness :
    pow2f32 0 = 1 ∧ pow2f32 1 = 2 ∧ pow2f32 (-1) = 1/2
    ∧ (finalAttr
        (callEvents Scene.empty
          (environment_texture Scene.empty pow2f32 none "env.exr" none none none []).2)
        (environment_texture Scene.empty pow2f32 none "env.exr" none none none []).1.2
        "intensity"
      = some (.flt (pow2f32 ((none : Option ℚ).getD 0)))
    ∧ finalAttr
        (callEvents Scene.empty
          (environment_sky Scene.empty pow2f32 none none none none []).2)
        (environment_sky Scene.empty pow2f32 none none none none []).1.2
        "intensity"
      = some (.flt (pow2f32 ((none : Option ℚ).getD 0)))
    ∧ finalAttr
        (callEvents Scene.empty
          (environment_texture Scene.empty pow2f32 none "env.exr" none none none []).2)
        (environment_texture Scene.empty pow2f32 none "env.exr" none none none []).1.2
        "intensity"
      = some (.flt 1)
    ∧ finalAttr
        (callEvents Scene.empty
          (environment_texture Scene.empty pow2f32 none "env.exr" none (some 1) none []).2)
        (environment_texture Scene.empty pow2f32 none "env.exr" none (some 1) none []).1.2
        "intensity"
      = some (.flt 2)
    ∧ finalAttr
        (callEvents Scene.empty
          (environment_texture Scene.empty pow2f32 none "env.exr" none (some (-1)) none []).2)
        (environment_texture Scene.empty pow2f32 none "env.exr" none (some (-1)) none []).1.2
        "intensity"
      = some (.flt (1/2))
    ∧ finalAttr
        (callEvents Scene.empty
          (environment_sky Scene.empty pow2f32 none none (some 1) none []).2)
        (environment_sky Scene.empty pow2f32 none none (some 1) none []).1.2
        "intensity"
      = some (.flt 2)
    ∧ finalAttr
        (callEvents Scene.empty
          (environment_sky Scene.empty pow2f32 none none (some (-1)) none []).2)
        (environment_sky Scene.empty pow2f32 none none (some (-1)) none []).1.2
        "intensity"
      = some (.flt (1/2))) :=
  ⟨by simp [pow2f32], by simp [pow2f32], by simp [pow2f32],
   c4_intensity_is_two_pow_exposure Scene.empty pow2f32 none "env.exr" none
     none none (by simp [pow2f32]) (by simp [pow2f32]) (by simp [pow2f32])⟩

/-- C5: for every call to `environment_texture` or `environment_sky` with a
non-empty override list `args`, the scene receives exactly two
`set_attribute` calls, both on the shader: first the variant's computed
defaults, then `args`; consequently, under last-write-wins, an "intensity"
entry of `args` determines the final observed intensity. -/
theorem c5_overrides_applied_after_defaults (s : Scene) (pow2 : ℚ → ℚ)
    (handle : Option String) (texture : String) (angle : Option ℚ)
    (exposure : Option ℚ) (visible : Option Bool)
    (args : List (String × AttrValue)) (v : AttrValue)
    (hargs : args ≠ []) (hv : lookupLast "intensity" args = some v) :
    setAttrsIn
        (callEvents s
          (environment_texture s pow2 handle texture angle exposure visible args).2)
      = [((environment_texture s pow2 handle texture angle exposure visible args).1.2,
          [("shaderfilename", .str envLightShaderPath),
           ("intensity", .flt (pow2 (exposure.getD 0))),
           ("image", .str texture)]),
         ((environment_texture s pow2 handle texture angle exposure visible args).1.2,
          args)]
    ∧ finalAttr
        (callEvents s
          (environment_texture s pow2 handle texture angle exposure visible args).2)
        (environment_texture s pow2 handle texture angle exposure visible args).1.2
        "intensity"
      = some v
    ∧ setAttrsIn
        (callEvents s (environment_sky s pow2 handle angle exposure visible args).2)
      = [((environment_sky s pow2 handle angle exposure visible args).1.2,
          [("shaderfilename", .str skyShaderPath),
           ("intensity", .flt (pow2 (exposure.getD 0)))]),
         ((environment_sky s pow2 handle angle exposure visible args).1.2,
          args)]
    ∧ finalAttr
        (callEvents s (environment_sky s pow2 handle angle exposure visible args).2)
        (environment_sky s pow2 handle angle exposure visible args).1.2
        "intensity"
      = some v := by
  obtain ⟨p, args, rfl⟩ : ∃ p t, args = p :: t := by
    cases args with
    | nil => exact absurd rfl hargs
    | cons p t => exact ⟨p, t, rfl⟩
  cases handle <;>
    refine ⟨?_, ?_, ?_, ?_⟩ <;>
      simp [environment_run_none, environment_run_some, environment_texture,
        environment_sky, Scene.set_attribute, Scene.emit, callEvents,
        setAttrsIn, finalAttr, writesOn] <;>
      exact lookupLast_cons _ _ _ _ (lookupLast_cons _ _ _ _ hv)

/-- C5 witness: applying the theorem at a concrete call whose override list
sets "intensity" to 5, while the computed default would be 2. -/
theorem c5_overrides_applied_after_defaults_witness :
    ([(("intensity" : String), AttrValue.flt 5)] ≠ [])
    ∧ lookupLast "intensity" [("intensity", AttrValue.flt 5)]
        = some (AttrValue.flt 5)
    ∧ (setAttrsIn
        (callEvents Scene.empty
          (environment_texture Scene.empty pow2f32 none "env.exr" none (some 1)
            none [("intensity", AttrValue.flt 5)]).2)
      = [((environment_texture Scene.empty pow2f32 none "env.exr" none (some 1)
            none [("intensity", AttrValue.flt 5)]).1.2,
          [("shaderfilename", .str envLightShaderPath),
           ("intensity", .flt (pow2f32 ((some (1 : ℚ)).getD 0))),
           ("image", .str "env.exr")]),
         ((environment_texture Scene.empty pow2f32 none "env.exr" none (some 1)
            none [("intensity", AttrValue.flt 5)]).1.2,
          [("intensity", AttrValue.flt 5)])]
    ∧ finalAttr
        (callEvents Scene.empty
          (environment_texture Scene.empty pow2f32 none "env.exr" none (some 1)
            none [("intensity", AttrValue.flt 5)]).2)
        (environment_texture Scene.empty pow2f32 none "env.exr" none (some 1)
          none [("intensity", AttrValue.flt 5)]).1.2
        "intensity"
      = some (AttrValue.flt 5)
    ∧ setAttrsIn
        (callEvents Scene.empty
          (environment_sky Scene.empty pow2f32 none none (some 1) none
            [("intensity", AttrValue.flt 5)]).2)
      = [((environment_sky Scene.empty pow2f32 none none (some 1) none
            [("intensity", AttrValue.flt 5)]).1.2,
          [("shaderfilename", .str skyShaderPath),
           ("intensity", .flt (pow2f32 ((some (1 : ℚ)).getD 0)))]),
         ((environment_sky Scene.empty pow2f32 none none (some 1) none
            [("intensity", AttrValue.flt 5)]).1.2,
          [("intensity", AttrValue.flt 5)])]
    ∧ finalAttr
        (callEvents Scene.empty
          (environment_sky Scene.empty pow2f32 none none (some 1) none
            [("intensity", AttrValue.flt 5)]).2)
        (environment_sky Scene.empty pow2f32 none none (some 1) none
          [("intensity", AttrValue.flt 5)]).1.2
        "intensity"
      = some (AttrValue.flt 5)) :=
  ⟨by simp, by simp [lookupLast],
   c5_overrides_applied_after_defaults Scene.empty pow2f32 none "env.exr"
     none (some 1) none [("intensity", AttrValue.flt 5)] (AttrValue.flt 5)
     (by simp) (by simp [lookupLast])⟩

/-- C6: with no overrides, `environment_texture` issues exactly one
`set_attribute` call, on the shader, with exactly the three attributes
shader-program reference, "intensity" and "image" (the supplied texture
path); `environment_sky` issues exactly one such call with exactly the two
attributes shader-program reference and "intensity" and never writes any
"image" attribute; and in both cases the base rig's shader node itself is
created with an empty attribute list. -/
theorem c6_variant_attribute_sets (s : Scene) (pow2 : ℚ → ℚ)
    (handle : Option String) (texture : String) (angle : Option ℚ)
    (exposure : Option ℚ) (visible : Option Bool) :
    setAttrsIn
        (callEvents s
          (environment_texture s pow2 handle texture angle exposure visible []).2)
      = [((environment_texture s pow2 handle texture angle exposure visible []).1.2,
          [("shaderfilename", .str envLightShaderPath),
           ("intensity", .flt (pow2 (exposure.getD 0))),
           ("image", .str texture)])]
    ∧ setAttrsIn
        (callEvents s (environment_sky s pow2 handle angle exposure visible []).2)
      = [((environment_sky s pow2 handle angle exposure visible []).1.2,
          [("shaderfilename", .str skyShaderPath),
           ("intensity", .flt (pow2 (exposure.getD 0)))])]
    ∧ finalAttr
        (callEvents s (environment_sky s pow2 handle angle exposure visible []).2)
        (environment_sky s pow2 handle angle exposure visible []).1.2
        "image"
      = none
    ∧ shaderCreates
        (callEvents s
          (environment_texture s pow2 handle texture angle exposure visible []).2)
      = [((environment_texture s pow2 handle texture angle exposure visible []).1.2,
          [])]
    ∧ shaderCreates
        (callEvents s (environment_sky s pow2 handle angle exposure visible []).2)
      = [((environment_sky s pow2 handle angle exposure visible []).1.2, [])] := by
  cases handle <;>
    simp [environment_run_none, environment_run_some, environment_texture,
      environment_sky, Scene.set_attribute, Scene.emit, callEvents,
      setAttrsIn, finalAttr, writesOn, lookupLast, shaderCreates, createsIn]

/-- C7: every call to each of the three composition functions creates
exactly one Attributes-type node, whose initial attribute list is the
single integer entry "visibility.camera", valued 1 when `visible` is true
or absent and 0 when `visible` is false. -/
theorem c7_visibility_camera_attribute (s : Scene) (pow2 : ℚ → ℚ)
    (handle : Option String) (texture : String) (angle : Option ℚ)
    (exposure : Option ℚ) (visible : Option Bool)
    (args : List (String × AttrValue)) :
    attributesCreates (callEvents s (environment s handle angle visible).2)
      = [[("visibility.camera", .int (if visible.getD true then 1 else 0))]]
    ∧ attributesCreates
        (callEvents s
          (environment_texture s pow2 handle texture angle exposure visible args).2)
      = [[("visibility.camera", .int (if visible.getD true then 1 else 0))]]
    ∧ attributesCreates
        (callEvents s (environment_sky s pow2 handle angle exposure visible args).2)
      = [[("visibility.camera", .int (if visible.getD true then 1 else 0))]] := by
  cases handle <;> cases args <;>
    simp [environment_run_none, environment_run_some, environment_texture,
      environment_sky, Scene.set_attribute, Scene.emit, callEvents,
      attributesCreates, createsIn]

/-- C8: `environment_texture` and `environment_sky` each consist of exactly
one base `environment` call followed only by `set_attribute` operations: the
returned handle pair equals the base call's pair unchanged, and the event
log is the base call's log extended only by `set_attribute` events (hence
no additional nodes and no additional connections). -/
theorem c8_variants_extend_base_with_setattrs_only (s : Scene)
    (pow2 : ℚ → ℚ) (handle : Option String) (texture : String)
    (angle : Option ℚ) (exposure : Option ℚ) (visible : Option Bool)
    (args : List (String × AttrValue)) :
    ((environment_texture s pow2 handle texture angle exposure visible args).1
        = (environment s handle angle visible).1
      ∧ ∃ extra,
          (environment_texture s pow2 handle texture angle exposure visible args).2.events
            = (environment s handle angle visible).2.events ++ extra
          ∧ extra.all Event.isSetAttr = true)
    ∧ ((environment_sky s pow2 handle angle exposure visible args).1
        = (environment s handle angle visible).1
      ∧ ∃ extra,
          (environment_sky s pow2 handle angle exposure visible args).2.events
            = (environment s handle angle visible).2.events ++ extra
          ∧ extra.all Event.isSetAttr = true) := by
  rcases hE : environment s handle angle visible with ⟨⟨r, sh⟩, s1⟩
  cases args with
  | nil =>
    refine ⟨⟨?_, ⟨[.setAttr sh
          [("shaderfilename", .str envLightShaderPath),
           ("intensity", .flt (pow2 (exposure.getD 0))),
           ("image", .str texture)]], ?_, rfl⟩⟩,
        ⟨?_, ⟨[.setAttr sh
          [("shaderfilename", .str skyShaderPath),
           ("intensity", .flt (pow2 (exposure.getD 0)))]], ?_, rfl⟩⟩⟩ <;>
      simp [environment_texture, environment_sky, hE, Scene.set_attribute,
        Scene.emit]
  | cons p t =>
    refine ⟨⟨?_, ⟨[.setAttr sh
          [("shaderfilename", .str envLightShaderPath),
           ("intensity", .flt (pow2 (exposure.getD 0))),
           ("image", .str texture)],
          .setAttr sh (p :: t)], ?_, rfl⟩⟩,
        ⟨?_, ⟨[.setAttr sh
          [("shaderfilename", .str skyShaderPath),
           ("intensity", .flt (pow2 (exposure.getD 0)))],
          .setAttr sh (p :: t)], ?_, rfl⟩⟩⟩ <;>
      simp [environment_texture, environment_sky, hE, Scene.set_attribute,
        Scene.emit]

/-- C9: a caller-supplied handle names the environment light node (resolved
via `generate_or_use_handle` with category "environment": the generated
fallback carries that category), while the rig root returned by every call
is the rotation transform's handle, always allocator-generated with
category "rotation" from the allocator state alone — no input can name
it. -/
theorem c9_caller_handle_names_light_root_is_generated (s : Scene)
    (h : String) (angle : Option ℚ) (visible : Option Bool) :
    environmentCreates (callEvents s (environment s (some h) angle visible).2)
      = [Handle.user h]
    ∧ environmentCreates (callEvents s (environment s none angle visible).2)
      = [Handle.gen (some "environment") (s.counter + 1)]
    ∧ ∀ handle : Option String,
        (environment s handle angle visible).1.1
          = Handle.gen (some "rotation") s.counter := by
  refine ⟨?_, ?_, fun handle => ?_⟩
  · simp [environment_run_some, callEvents, environmentCreates, createsIn]
  · simp [environment_run_none, callEvents, environmentCreates, createsIn]
  · cases handle <;> simp [environment_run_none, environment_run_some]

/-- C10: the second element of every returned pair is the handle of the one
Shader-type node the call creates, which is created with an empty attribute
list and an allocator-generated handle; no input value influences it — it
is unchanged under any change of angle or visibility, under any change of
the supplied handle string, and the variants return the base call's shader
handle for every texture, exposure and override-list argument. -/
theorem c10_shader_handle_fresh_and_input_independent (s : Scene)
    (pow2 : ℚ → ℚ) (handle : Option String) (texture : String)
    (angle angle2 : Option ℚ) (exposure : Option ℚ)
    (visible visible2 : Option Bool) (args : List (String × AttrValue))
    (h1 h2 : String) :
    shaderCreates (callEvents s (environment s handle angle visible).2)
      = [((environment s handle angle visible).1.2, [])]
    ∧ (∃ n, (environment s handle angle visible).1.2
          = Handle.gen (some "shader") n)
    ∧ (environment s handle angle visible).1.2
        = (environment s handle angle2 visible2).1.2
    ∧ (environment s (some h1) angle visible).1.2
        = (environment s (some h2) angle visible).1.2
    ∧ (environment_texture s pow2 handle texture angle exposure visible args).1.2
        = (environment s handle angle visible).1.2
    ∧ (environment_sky s pow2 handle angle exposure visible args).1.2
        = (environment s handle angle visible).1.2 := by
  refine ⟨?_, ?_, ?_, ?_, ?_, ?_⟩
  · cases handle <;>
      simp [environment_run_none, environment_run_some, callEvents,
        shaderCreates, createsIn]
  · cases handle <;> simp [environment_run_none, environment_run_some]
  · cases handle <;> simp [environment_run_none, environment_run_some]
  · simp [environment_run_some]
  · rcases hE : environment s handle angle visible with ⟨⟨r, sh⟩, s1⟩
    cases args <;>
      simp [environment_texture, hE, Scene.set_attribute, Scene.emit]
  · rcases hE : environment s handle angle visible with ⟨⟨r, sh⟩, s1⟩
    cases args <;>
      simp [environment_sky, hE, Scene.set_attribute, Scene.emit]

end NsiRig
